import Mathlib

/-!
Shallow embedding of the DS2482_OneWire driver (src/OneWire.cpp, src/OneWire.h).

The driver talks to a DS2482 I2C-to-1-Wire bridge through four transport
primitives (beginTransmission / write / endTransmission / requestFrom+read).
We model the transport as a structure `Bus σ` over an arbitrary transport
state `σ`, and every driver method as an explicit state-passing function.
Machine bytes are `Nat` with `% 256` exactly where the C++ types truncate.
-/

namespace DS2482OW

/-! Constants from src/OneWire.h -/

def DS2482_COMMAND_RESET : Nat := 0xF0
def DS2482_COMMAND_SRP : Nat := 0xE1

def DS2482_POINTER_STATUS : Nat := 0xF0
def DS2482_POINTER_DATA : Nat := 0xE1
def DS2482_POINTER_CONFIG : Nat := 0xC3

def DS2482_COMMAND_WRITECONFIG : Nat := 0xD2
def DS2482_COMMAND_RESETWIRE : Nat := 0xB4
def DS2482_COMMAND_WRITEBYTE : Nat := 0xA5
def DS2482_COMMAND_READBYTE : Nat := 0x96
def DS2482_COMMAND_SINGLEBIT : Nat := 0x87
def DS2482_COMMAND_TRIPLET : Nat := 0x78

def WIRE_COMMAND_SKIP : Nat := 0xCC
def WIRE_COMMAND_SELECT : Nat := 0x55
def WIRE_COMMAND_SEARCH : Nat := 0xF0

def DS2482_STATUS_BUSY : Nat := 1
def DS2482_STATUS_PPD : Nat := 2
def DS2482_STATUS_SD : Nat := 4
def DS2482_STATUS_LL : Nat := 8
def DS2482_STATUS_RST : Nat := 16
def DS2482_STATUS_SBR : Nat := 32
def DS2482_STATUS_TSB : Nat := 64
def DS2482_STATUS_DIR : Nat := 128

def DS2482_CONFIG_APU : Nat := 1
def DS2482_CONFIG_SPU : Nat := 4
def DS2482_CONFIG_1WS : Nat := 8

def DS2482_ERROR_TIMEOUT : Nat := 1
def DS2482_ERROR_SHORT : Nat := 2
def DS2482_ERROR_CONFIG : Nat := 4

/-- Host-side driver state: the `mError` flag byte and the search state
(`searchAddress`, `searchLastDiscrepancy`, `searchLastDeviceFlag`) of the
`OneWire` class.  `mAddress` is immutable and irrelevant to the claims. -/
structure OWState where
  mError : Nat
  searchAddress : List Nat
  searchLastDiscrepancy : Nat
  searchLastDeviceFlag : Nat
deriving Repr, DecidableEq

/-- The I2C transport interface consumed by the driver:
`beginTransmission`, `write`, `endTransmission` (returns a status code) and
`requestFrom`+`read` (returns one byte), over transport state `σ`. -/
structure Bus (σ : Type) where
  beginT : σ → σ
  writeT : Nat → σ → σ
  endT : σ → σ × Nat
  readT : σ → σ × Nat

variable {σ : Type}

/-- C++ logical not on an integer value (`!x`): 1 if zero, else 0. -/
def cNot (x : Nat) : Nat := if x = 0 then 1 else 0

/-- `OneWire::writeByte`: `Wire.write(data)` with `uint8_t` truncation. -/
def writeByte (B : Bus σ) (data : Nat) (s : σ) : σ := B.writeT (data % 256) s

/-- `OneWire::readByte`: `Wire.requestFrom(mAddress, 1); return Wire.read();`,
truncated to a byte by the `uint8_t` return type. -/
def readByte (B : Bus σ) (s : σ) : σ × Nat :=
  let r := B.readT s
  (r.1, r.2 % 256)

/-- `OneWire::setReadPointer`: begin; write SRP; write pointer; end. -/
def setReadPointer (B : Bus σ) (readPointer : Nat) (s : σ) : σ :=
  (B.endT (writeByte B readPointer (writeByte B DS2482_COMMAND_SRP (B.beginT s)))).1

/-- `OneWire::readStatus`. -/
def readStatus (B : Bus σ) (s : σ) : σ × Nat :=
  readByte B (setReadPointer B DS2482_POINTER_STATUS s)

/-- `OneWire::readData`. -/
def readData (B : Bus σ) (s : σ) : σ × Nat :=
  readByte B (setReadPointer B DS2482_POINTER_DATA s)

/-- `OneWire::readConfig`. -/
def readConfig (B : Bus σ) (s : σ) : σ × Nat :=
  readByte B (setReadPointer B DS2482_POINTER_CONFIG s)

/-- The status-poll loop of `OneWire::waitOnBusy`.  `fuel` counts the polls
still allowed after the current one, so `waitLoop B 999 s` performs at most
the 1000 reads of the C++ `for (int i = 1000; i > 0; i--)` loop and returns
the transport state and the last status byte read (the 20 microsecond delay
between polls has no observable effect in the model). -/
def waitLoop (B : Bus σ) : Nat → σ → σ × Nat
  | 0, s => readStatus B s
  | fuel + 1, s =>
    let r := readStatus B s
    if r.2 &&& DS2482_STATUS_BUSY = 0 then r else waitLoop B fuel r.1

/-- `OneWire::waitOnBusy`: poll up to 1000 times; if the last status read
still has BUSY set, assign `mError = DS2482_ERROR_TIMEOUT`; return the last
status byte in every case. -/
def waitOnBusy (B : Bus σ) (d : OWState) (s : σ) : (OWState × σ) × Nat :=
  let r := waitLoop B 999 s
  if r.2 &&& DS2482_STATUS_BUSY ≠ 0 then
    (({ d with mError := DS2482_ERROR_TIMEOUT }, r.1), r.2)
  else
    ((d, r.1), r.2)

/-- The data byte `config | (~config) << 4` that `OneWire::writeConfig`
transmits, for `config < 256`: the low nibble of the one's complement of
`config` packed into the upper nibble (the `uint8_t` truncation keeps only
those 8 bits). -/
def writeConfigByte (config : Nat) : Nat :=
  config ||| ((15 ^^^ (config &&& 15)) <<< 4)

/-- `OneWire::writeConfig`: wait not-busy, transmit the WRITECONFIG command
with the complement-framed data byte, read back one byte and assign
`mError = DS2482_ERROR_CONFIG` when it differs from the argument. -/
def writeConfig (B : Bus σ) (config : Nat) (d : OWState) (s : σ) : OWState × σ :=
  let c := config % 256
  let w := waitOnBusy B d s
  let s1 := B.beginT w.1.2
  let s2 := writeByte B DS2482_COMMAND_WRITECONFIG s1
  let s3 := writeByte B (writeConfigByte c) s2
  let s4 := (B.endT s3).1
  let r := readByte B s4
  if r.2 ≠ c then ({ w.1.1 with mError := DS2482_ERROR_CONFIG }, r.1)
  else (w.1.1, r.1)

/-- `OneWire::setStrongPullup`: `writeConfig(readConfig() | DS2482_CONFIG_SPU)`. -/
def setStrongPullup (B : Bus σ) (d : OWState) (s : σ) : OWState × σ :=
  let r := readConfig B s
  writeConfig B (r.2 ||| DS2482_CONFIG_SPU) d r.1

/-- `OneWire::clearStrongPullup`: `writeConfig(readConfig() & !DS2482_CONFIG_SPU)`.
The source uses the C++ logical not `!`, not the bitwise complement `~`. -/
def clearStrongPullup (B : Bus σ) (d : OWState) (s : σ) : OWState × σ :=
  let r := readConfig B s
  writeConfig B (r.2 &&& cNot DS2482_CONFIG_SPU) d r.1

/-- `OneWire::wireReset`: wait, force-clear SPU, wait, issue RESETWIRE, wait;
SD in the final status assigns `mError = DS2482_ERROR_SHORT`; the returned
value is 1 exactly when PPD is set. -/
def wireReset (B : Bus σ) (d : OWState) (s : σ) : (OWState × σ) × Nat :=
  let w1 := waitOnBusy B d s
  let p1 := clearStrongPullup B w1.1.1 w1.1.2
  let w2 := waitOnBusy B p1.1 p1.2
  let s1 := B.beginT w2.1.2
  let s2 := writeByte B DS2482_COMMAND_RESETWIRE s1
  let s3 := (B.endT s2).1
  let w3 := waitOnBusy B w2.1.1 s3
  let d1 := if w3.2 &&& DS2482_STATUS_SD ≠ 0 then
    { w3.1.1 with mError := DS2482_ERROR_SHORT } else w3.1.1
  ((d1, w3.1.2), if w3.2 &&& DS2482_STATUS_PPD ≠ 0 then 1 else 0)

/-- `OneWire::wireWriteByte`: wait not-busy, optionally arm SPU, then issue
the WRITEBYTE command followed by the data byte. -/
def wireWriteByte (B : Bus σ) (data power : Nat) (d : OWState) (s : σ) : OWState × σ :=
  let w := waitOnBusy B d s
  let p := if power ≠ 0 then setStrongPullup B w.1.1 w.1.2 else w.1
  let s1 := B.beginT p.2
  let s2 := writeByte B DS2482_COMMAND_WRITEBYTE s1
  let s3 := writeByte B data s2
  (p.1, (B.endT s3).1)

/-- `OneWire::write` (compatibility alias): forwards to `wireWriteByte`. -/
def write (B : Bus σ) (v power : Nat) (d : OWState) (s : σ) : OWState × σ :=
  wireWriteByte B v power d s

/-- `OneWire::deviceReset`: `begin(); write(DS2482_COMMAND_RESET); end();`.
The source calls the 1-Wire `write` alias (hence `wireWriteByte`), not the
raw I2C `writeByte`. -/
def deviceReset (B : Bus σ) (d : OWState) (s : σ) : OWState × σ :=
  let s1 := B.beginT s
  let p := write B DS2482_COMMAND_RESET 0 d s1
  (p.1, (B.endT p.2).1)

/-- `OneWire::wireResetSearch`: zero the discrepancy index, the last-device
flag and the 8-byte working address. -/
def wireResetSearch (d : OWState) : OWState :=
  { d with searchLastDiscrepancy := 0, searchLastDeviceFlag := 0,
           searchAddress := List.replicate 8 0 }

/-- Result of the 64-iteration triplet loop of `OneWire::wireSearch`:
driver state, transport state, the running `last_zero`, whether the loop ran
to completion (false exactly when it aborted on SBR and TSB both set), and
the list of post-triplet status bytes observed (a ghost observation used to
state properties; it alters no behavior). -/
structure SearchLoopResult (σ : Type) where
  d : OWState
  s : σ
  lastZero : Nat
  completed : Bool
  statuses : List Nat

/-- One iteration of the `wireSearch` loop up to and including the
post-triplet `waitOnBusy`: choose the direction for bit `i`, issue the
TRIPLET command, wait, and return the resulting driver and transport state
together with the post-triplet status byte. -/
def searchStep (B : Bus σ) (i : Nat) (d : OWState) (s : σ) : (OWState × σ) × Nat :=
  let searchByte := i / 8
  let searchBit := 1 <<< (i % 8)
  let direction :=
    if i < d.searchLastDiscrepancy then d.searchAddress.getD searchByte 0 &&& searchBit
    else (if i = d.searchLastDiscrepancy then 1 else 0)
  let w1 := waitOnBusy B d s
  let s1 := B.beginT w1.1.2
  let s2 := writeByte B DS2482_COMMAND_TRIPLET s1
  let s3 := writeByte B (if direction ≠ 0 then 0x80 else 0x00) s2
  let s4 := (B.endT s3).1
  waitOnBusy B w1.1.1 s4

/-- The body of `OneWire::wireSearch`'s `for (uint8_t i = 0; i < 64; i++)`
loop, with `fuel = 64 - i` driving the recursion. -/
def searchLoop (B : Bus σ) : Nat → Nat → Nat → OWState → σ → List Nat → SearchLoopResult σ
  | 0, _, lastZero, d, s, acc => ⟨d, s, lastZero, true, acc⟩
  | fuel + 1, i, lastZero, d, s, acc =>
    let r := searchStep B i d s
    let status := r.2
    let sbrBit := status &&& DS2482_STATUS_SBR
    let tsbBit := status &&& DS2482_STATUS_TSB
    let dirBit := status &&& DS2482_STATUS_DIR
    let acc1 := acc ++ [status]
    if sbrBit ≠ 0 ∧ tsbBit ≠ 0 then ⟨r.1.1, r.1.2, lastZero, false, acc1⟩
    else
      let searchByte := i / 8
      let searchBit := 1 <<< (i % 8)
      let lastZero1 := if sbrBit = 0 ∧ tsbBit = 0 ∧ dirBit = 0 then i else lastZero
      let oldByte := (r.1.1).searchAddress.getD searchByte 0
      let newByte := if dirBit ≠ 0 then oldByte ||| searchBit
                     else oldByte &&& (255 ^^^ searchBit)
      let d1 := { r.1.1 with searchAddress := (r.1.1).searchAddress.set searchByte newByte }
      searchLoop B fuel (i + 1) lastZero1 d1 r.1.2 acc1

/-- `OneWire::wireSearch`.  The second component is the address written to
the caller's output buffer (`none` when the call returns 0 and leaves the
buffer untouched), paired with the ghost list of post-triplet status bytes. -/
def wireSearch (B : Bus σ) (d : OWState) (s : σ) :
    (OWState × σ) × (Option (List Nat) × List Nat) :=
  if d.searchLastDeviceFlag ≠ 0 then ((d, s), (none, []))
  else
    let r := wireReset B d s
    if r.2 = 0 then ((r.1.1, r.1.2), (none, []))
    else
      let w := waitOnBusy B r.1.1 r.1.2
      let p := wireWriteByte B WIRE_COMMAND_SEARCH 0 w.1.1 w.1.2
      let L := searchLoop B 64 0 0 p.1 p.2 []
      if L.completed then
        let d1 := { L.d with
          searchLastDiscrepancy := L.lastZero,
          searchLastDeviceFlag := if L.lastZero = 0 then 1 else (L.d).searchLastDeviceFlag }
        ((d1, L.s), (some d1.searchAddress, L.statuses))
      else ((L.d, L.s), (none, L.statuses))

/-! CRC-8 (src/OneWire.cpp lines 418-477).  The build defines
ONEWIRE_CRC8_TABLE, so the table implementation is the one compiled; the
bit-serial implementation is the `#else` branch.  Both are modelled. -/

/-- The 256-entry Dallas CRC-8 table `dscrc_table` from the source. -/
def dscrc_table : List Nat := [
    0,  94, 188, 226,  97,  63, 221, 131, 194, 156, 126,  32, 163, 253,  31,  65, 157, 195,  33, 127, 252, 162,  64,
   30,  95,   1, 227, 189,  62,  96, 130, 220,  35, 125, 159, 193,  66,  28, 254, 160, 225, 191,  93,   3, 128, 222,
   60,  98, 190, 224,   2,  92, 223, 129,  99,  61, 124,  34, 192, 158,  29,  67, 161, 255,  70,  24, 250, 164,  39,
  121, 155, 197, 132, 218,  56, 102, 229, 187,  89,   7, 219, 133, 103,  57, 186, 228,   6,  88,  25,  71, 165, 251,
  120,  38, 196, 154, 101,  59, 217, 135,   4,  90, 184, 230, 167, 249,  27,  69, 198, 152, 122,  36, 248, 166,  68,
   26, 153, 199,  37, 123,  58, 100, 134, 216,  91,   5, 231, 185, 140, 210,  48, 110, 237, 179,  81,  15,  78,  16,
  242, 172,  47, 113, 147, 205,  17,  79, 173, 243, 112,  46, 204, 146, 211, 141, 111,  49, 178, 236,  14,  80, 175,
  241,  19,  77, 206, 144, 114,  44, 109,  51, 209, 143,  12,  82, 176, 238,  50, 108, 142, 208,  83,  13, 239, 177,
  240, 174,  76,  18, 145, 207,  45, 115, 202, 148, 118,  40, 171, 245,  23,  73,   8,  86, 180, 234, 105,  55, 213,
  139,  87,   9, 235, 181,  54, 104, 138, 212, 149, 203,  41, 119, 244, 170,  72,  22, 233, 183,  85,  11, 136, 214,
   52, 106,  43, 117, 151, 201,  74,  20, 246, 168, 116,  42, 200, 150,  21,  75, 169, 247, 182, 232,  10,  84, 215,
  137, 107,  53]

/-- The table-driven `OneWire::crc8`: one table lookup per input byte,
`crc = dscrc_table[crc ^ *addr++]`, processing `len` bytes. -/
def crc8_table (addr : List Nat) (len : Nat) : Nat :=
  (addr.take len).foldl (fun crc b => dscrc_table.getD (crc ^^^ (b % 256)) 0) 0

/-- One inner-loop step of the bit-serial `OneWire::crc8`:
`mix = (crc ^ inbyte) & 1; crc >>= 1; if (mix) crc ^= 0x8C;`. -/
def crc8_bit (crc inbyte : Nat) : Nat :=
  let mix := (crc ^^^ inbyte) &&& 1
  if mix ≠ 0 then (crc >>> 1) ^^^ 0x8C else crc >>> 1

/-- The 8-iteration inner loop of the bit-serial `OneWire::crc8`,
also shifting `inbyte` right one bit per iteration. -/
def crc8_byte : Nat → Nat → Nat → Nat
  | 0, crc, _ => crc
  | n + 1, crc, inbyte => crc8_byte n (crc8_bit crc inbyte) (inbyte >>> 1)

/-- The bit-serial `OneWire::crc8` (the `#else` branch of the source),
processing `len` bytes LSB-first. -/
def crc8_serial (addr : List Nat) (len : Nat) : Nat :=
  (addr.take len).foldl (fun crc b => crc8_byte 8 crc (b % 256)) 0

/-! Concrete transports used to instantiate the `Bus` interface. -/

/-- A transport whose reads return a scripted byte stream: the state is the
number of reads performed so far, and the `n`-th read returns `f n`.
`beginTransmission`/`write`/`endTransmission` succeed and are not recorded. -/
def streamBus (f : Nat → Nat) : Bus Nat where
  beginT := fun s => s
  writeT := fun _ s => s
  endT := fun s => (s, 0)
  readT := fun s => (s + 1, f s)

/-- A transport that additionally logs every byte written: the state is the
read counter paired with the list of bytes written so far. -/
def recBus (f : Nat → Nat) : Bus (Nat × List Nat) where
  beginT := fun s => s
  writeT := fun b s => (s.1, s.2 ++ [b])
  endT := fun s => (s, 0)
  readT := fun s => ((s.1 + 1, s.2), f s.1)

/-! A functional simulator of a DS2482 bridge with a set of 1-Wire devices
attached, used as a multi-drop bus fixture.  It decodes the byte
transactions the driver issues and models the chip registers plus the
wired-AND search semantics of the bus. -/

/-- Bit `i` (0 = LSB of the first byte) of an 8-byte ROM. -/
def romBit (rom : List Nat) (i : Nat) : Nat :=
  (rom.getD (i / 8) 0 >>> (i % 8)) &&& 1

/-- Simulator state: bytes pending in the current I2C transaction, the chip
read pointer and config register, the current status register value, the
devices still matching the bits taken so far in the current search, and the
next search bit position. -/
structure SimState where
  pending : List Nat
  readPtr : Nat
  config : Nat
  status : Nat
  matching : List (List Nat)
  bitPos : Nat
deriving Repr, DecidableEq

/-- Initial simulator state: idle chip, nothing pending. -/
def simInit : SimState :=
  { pending := [], readPtr := DS2482_POINTER_STATUS, config := 0, status := 0,
    matching := [], bitPos := 0 }

/-- Triplet semantics at bit position `bit` with requested direction `v`
(nonzero = 1) over the active devices: SBR is 0 when some active device has
the bit 0 (wired-AND), TSB is 0 when some active device has the bit 1; the
branch taken is forced when the devices agree, is `v` at a discrepancy, and
is 1 in the error case with no active device.  Returns the new status byte
and the devices matching the taken branch. -/
def tripletResult (active : List (List Nat)) (bit v : Nat) : Nat × List (List Nat) :=
  let zeros := active.filter (fun r => romBit r bit == 0)
  let ones := active.filter (fun r => romBit r bit == 1)
  let sbr := if zeros.isEmpty then 1 else 0
  let tsb := if ones.isEmpty then 1 else 0
  let taken := if sbr = 1 ∧ tsb = 1 then 1
    else if sbr = 1 then 1
    else if tsb = 1 then 0
    else (if v ≠ 0 then 1 else 0)
  let status := (sbr * DS2482_STATUS_SBR) + (tsb * DS2482_STATUS_TSB) +
    (taken * DS2482_STATUS_DIR)
  (status, if taken = 1 then ones else zeros)

/-- Process one completed I2C transaction (the bytes written between
`beginTransmission` and `endTransmission`) against the simulated chip. -/
def simCommand (devices : List (List Nat)) (st : SimState) : SimState :=
  match st.pending with
  | [0xE1, ptr] => { st with pending := [], readPtr := ptr }
  | [0xD2, b] =>
      { st with pending := [], config := b &&& 15, readPtr := DS2482_POINTER_CONFIG }
  | [0xB4] =>
      { st with
        pending := [], matching := devices, bitPos := 0,
        status := if devices.isEmpty then 0 else DS2482_STATUS_PPD,
        readPtr := DS2482_POINTER_STATUS }
  | [0xA5, b] =>
      if b = 0xF0 then
        { st with
          pending := [], bitPos := 0, status := 0,
          readPtr := DS2482_POINTER_STATUS }
      else { st with pending := [], status := 0, readPtr := DS2482_POINTER_STATUS }
  | [0x78, v] =>
      let r := tripletResult st.matching st.bitPos v
      { st with
        pending := [], status := r.1, matching := r.2,
        bitPos := st.bitPos + 1, readPtr := DS2482_POINTER_STATUS }
  | [0xF0] =>
      { st with
        pending := [], config := 0, status := 0,
        readPtr := DS2482_POINTER_STATUS }
  | _ => { st with pending := [] }

/-- The simulated bridge as a `Bus`: `beginTransmission` clears the pending
buffer, writes append to it, `endTransmission` decodes and executes the
transaction, and a read returns the register selected by the read pointer. -/
def simBus (devices : List (List Nat)) : Bus SimState where
  beginT := fun st => { st with pending := [] }
  writeT := fun b st => { st with pending := st.pending ++ [b] }
  endT := fun st => (simCommand devices st, 0)
  readT := fun st =>
    (st, if st.readPtr = DS2482_POINTER_STATUS then st.status
         else if st.readPtr = DS2482_POINTER_CONFIG then st.config
         else 0)

/-- A driver state with no error recorded and cleared search state, as
produced by `wireResetSearch` on a fresh instance. -/
def initOW : OWState :=
  { mError := 0, searchAddress := List.replicate 8 0,
    searchLastDiscrepancy := 0, searchLastDeviceFlag := 0 }

/-! Equivalence of the two crc8 implementations. -/

/-- One shift-register step of the Dallas CRC on the xor-difference
`e = crc ^^^ inbyte`: shift right, feed back 0x8C on a set low bit. -/
def crcShift (e : Nat) : Nat :=
  if e &&& 1 ≠ 0 then (e >>> 1) ^^^ 0x8C else e >>> 1

/-- `n` iterations of `crcShift`. -/
def crcShiftN : Nat → Nat → Nat
  | 0, e => e
  | n + 1, e => crcShiftN n (crcShift e)

theorem shiftRight_one_xor (a b : Nat) : (a ^^^ b) >>> 1 = (a >>> 1) ^^^ (b >>> 1) := by
  simp only [Nat.shiftRight_one]
  exact Nat.xor_div_two

theorem crc8_bit_xor (c i : Nat) :
    crc8_bit c i ^^^ (i >>> 1) = crcShift (c ^^^ i) := by
  unfold crc8_bit crcShift
  by_cases h : (c ^^^ i) &&& 1 ≠ 0
  · rw [if_pos h, if_pos h, shiftRight_one_xor, Nat.xor_assoc, Nat.xor_assoc,
      Nat.xor_comm (0x8C : Nat) (i >>> 1)]
  · rw [if_neg h, if_neg h, shiftRight_one_xor]

theorem crc8_byte_eq_crcShiftN (n : Nat) :
    ∀ c i, crc8_byte n c i = crcShiftN n (c ^^^ i) ^^^ (i >>> n) := by
  induction n with
  | zero => intro c i; simp [crc8_byte, crcShiftN, Nat.xor_cancel_right]
  | succ n ih =>
    intro c i
    show crc8_byte n (crc8_bit c i) (i >>> 1) = _
    rw [ih (crc8_bit c i) (i >>> 1), crc8_bit_xor]
    have h2 : (i >>> 1) >>> n = i >>> (n + 1) := by
      rw [Nat.add_comm n 1, ← Nat.shiftRight_add]
    rw [h2]
    rfl

theorem crcShift_lt (e : Nat) (he : e < 256) : crcShift e < 256 := by
  unfold crcShift
  have h1 : e >>> 1 < 256 :=
    lt_of_le_of_lt (by rw [Nat.shiftRight_one]; exact Nat.div_le_self e 2) he
  by_cases h : e &&& 1 ≠ 0
  · rw [if_pos h]
    have h2 : (256 : Nat) = 2 ^ 8 := by norm_num
    rw [h2] at h1 ⊢
    exact Nat.xor_lt_two_pow h1 (by norm_num)
  · rw [if_neg h]
    exact h1

theorem crcShiftN_lt (n : Nat) : ∀ e, e < 256 → crcShiftN n e < 256 := by
  induction n with
  | zero => intro e he; exact he
  | succ n ih => intro e he; exact ih (crcShift e) (crcShift_lt e he)

set_option maxRecDepth 4000 in
theorem dscrc_table_entry : ∀ x : Fin 256, dscrc_table.getD x.val 0 = crcShiftN 8 x.val := by
  decide

theorem crc8_byte_lt (c i : Nat) (hc : c < 256) (hi : i < 256) :
    crc8_byte 8 c i < 256 := by
  rw [crc8_byte_eq_crcShiftN]
  have h8 : i >>> 8 = 0 := by
    rw [Nat.shiftRight_eq_div_pow]
    exact Nat.div_eq_of_lt (by norm_num at hi ⊢; omega)
  rw [h8, Nat.xor_zero]
  refine crcShiftN_lt 8 _ ?_
  have : (256 : Nat) = 2 ^ 8 := by norm_num
  rw [this] at hc hi ⊢
  exact Nat.xor_lt_two_pow hc hi

theorem table_step_eq_serial_step (c b : Nat) (hc : c < 256) (hb : b < 256) :
    dscrc_table.getD (c ^^^ b) 0 = crc8_byte 8 c b := by
  have hxor : c ^^^ b < 256 := by
    have h : (256 : Nat) = 2 ^ 8 := by norm_num
    rw [h] at hc hb ⊢
    exact Nat.xor_lt_two_pow hc hb
  have := dscrc_table_entry ⟨c ^^^ b, hxor⟩
  rw [this, crc8_byte_eq_crcShiftN]
  have h8 : b >>> 8 = 0 := by
    rw [Nat.shiftRight_eq_div_pow]
    exact Nat.div_eq_of_lt (by norm_num at hb ⊢; omega)
  rw [h8, Nat.xor_zero]

theorem table_entry_lt (x : Nat) (hx : x < 256) : dscrc_table.getD x 0 < 256 := by
  rw [dscrc_table_entry ⟨x, hx⟩]
  exact crcShiftN_lt 8 x hx

theorem crc8_fold_eq (l : List Nat) :
    ∀ c, c < 256 →
      l.foldl (fun crc b => dscrc_table.getD (crc ^^^ (b % 256)) 0) c =
      l.foldl (fun crc b => crc8_byte 8 crc (b % 256)) c := by
  induction l with
  | nil => intro c _; rfl
  | cons b t ih =>
    intro c hc
    have hb : b % 256 < 256 := Nat.mod_lt b (by norm_num)
    show (t.foldl _ (dscrc_table.getD (c ^^^ (b % 256)) 0)) = t.foldl _ (crc8_byte 8 c (b % 256))
    rw [table_step_eq_serial_step c (b % 256) hc hb]
    exact ih (crc8_byte 8 c (b % 256)) (crc8_byte_lt c (b % 256) hc hb)

/-! Characterization of the busy-poll loop over the scripted stream
transport: the `n`-th status read returns the byte `f n % 256`. -/

theorem readStatus_streamBus (f : Nat → Nat) (s : Nat) :
    readStatus (streamBus f) s = (s + 1, f s % 256) := rfl

/-- If the very first status read comes back not busy, the poll loop stops
there whatever the iteration budget is. -/
theorem waitLoop_first_clear (B : Bus σ) (s : σ)
    (h : (readStatus B s).2 &&& DS2482_STATUS_BUSY = 0) :
    ∀ fuel, waitLoop B fuel s = readStatus B s := by
  intro fuel
  cases fuel with
  | zero => rfl
  | succ n =>
    simp only [waitLoop]
    rw [if_pos h]

/-- If every status read in the budget is busy, the poll loop performs all
`fuel + 1` reads and returns the last one. -/
theorem waitLoop_stream_allBusy (f : Nat → Nat) :
    ∀ fuel s, (∀ k, k ≤ fuel → f (s + k) % 256 &&& DS2482_STATUS_BUSY ≠ 0) →
      waitLoop (streamBus f) fuel s = (s + fuel + 1, f (s + fuel) % 256) := by
  intro fuel
  induction fuel with
  | zero =>
    intro s _
    simp only [waitLoop, readStatus_streamBus, Nat.add_zero]
  | succ n ih =>
    intro s h
    simp only [waitLoop, readStatus_streamBus]
    rw [if_neg (by simpa using h 0 (by omega))]
    have h1 : ∀ k, k ≤ n → f (s + 1 + k) % 256 &&& DS2482_STATUS_BUSY ≠ 0 := by
      intro k hk
      have := h (k + 1) (by omega)
      have e : s + (k + 1) = s + 1 + k := by omega
      rwa [e] at this
    rw [ih (s + 1) h1]
    have e1 : s + 1 + n = s + (n + 1) := by omega
    rw [e1]

/-- If the `N`-th status read (0-based) is the first not-busy one and is
within the budget, the poll loop stops after exactly `N + 1` reads. -/
theorem waitLoop_stream_firstClear (f : Nat → Nat) :
    ∀ fuel N s, N ≤ fuel → f (s + N) % 256 &&& DS2482_STATUS_BUSY = 0 →
      (∀ m, m < N → f (s + m) % 256 &&& DS2482_STATUS_BUSY ≠ 0) →
      waitLoop (streamBus f) fuel s = (s + N + 1, f (s + N) % 256) := by
  intro fuel
  induction fuel with
  | zero =>
    intro N s hN hc _
    have hN0 : N = 0 := Nat.le_zero.mp hN
    subst hN0
    simp only [waitLoop, readStatus_streamBus, Nat.add_zero]
  | succ n ih =>
    intro N s hN hc hmin
    cases N with
    | zero =>
      simp only [waitLoop, readStatus_streamBus]
      rw [if_pos (by simpa using hc)]
      simp
    | succ M =>
      simp only [waitLoop, readStatus_streamBus]
      rw [if_neg (by simpa using hmin 0 (by omega))]
      have hc1 : f (s + 1 + M) % 256 &&& DS2482_STATUS_BUSY = 0 := by
        have e : s + 1 + M = s + (M + 1) := by omega
        rwa [e]
      have hmin1 : ∀ m, m < M → f (s + 1 + m) % 256 &&& DS2482_STATUS_BUSY ≠ 0 := by
        intro m hm
        have := hmin (m + 1) (by omega)
        have e : s + (m + 1) = s + 1 + m := by omega
        rwa [e] at this
      rw [ih M (s + 1) (by omega) hc1 hmin1]
      have e1 : s + 1 + M = s + (M + 1) := by omega
      rw [e1]

/-- `waitOnBusy` over the stream transport when every one of the 1000 polls
is busy: Timeout is assigned and the 1000th status is returned. -/
theorem waitOnBusy_stream_allBusy (f : Nat → Nat) (d : OWState) (s : Nat)
    (h : ∀ k, k ≤ 999 → f (s + k) % 256 &&& DS2482_STATUS_BUSY ≠ 0) :
    waitOnBusy (streamBus f) d s =
      (({ d with mError := DS2482_ERROR_TIMEOUT }, s + 1000), f (s + 999) % 256) := by
  unfold waitOnBusy
  rw [waitLoop_stream_allBusy f 999 s h]
  simp only
  rw [if_pos (h 999 (by omega))]

/-- `waitOnBusy` over the stream transport when the first not-busy poll is
the `N`-th with `N < 1000`: the driver state is untouched and exactly
`N + 1` reads happen. -/
theorem waitOnBusy_stream_firstClear (f : Nat → Nat) (d : OWState) (s N : Nat)
    (hN : N < 1000) (hc : f (s + N) % 256 &&& DS2482_STATUS_BUSY = 0)
    (hmin : ∀ m, m < N → f (s + m) % 256 &&& DS2482_STATUS_BUSY ≠ 0) :
    waitOnBusy (streamBus f) d s = ((d, s + N + 1), f (s + N) % 256) := by
  unfold waitOnBusy
  rw [waitLoop_stream_firstClear f 999 N s (by omega) hc hmin]
  simp only
  rw [if_neg (by simpa using hc)]

theorem streamBus_beginT (f : Nat → Nat) (s : Nat) : (streamBus f).beginT s = s := rfl

theorem streamBus_writeT (f : Nat → Nat) (b s : Nat) : (streamBus f).writeT b s = s := rfl

theorem streamBus_endT (f : Nat → Nat) (s : Nat) : (streamBus f).endT s = (s, 0) := rfl

theorem recBus_beginT (f : Nat → Nat) (s : Nat × List Nat) : (recBus f).beginT s = s := rfl

theorem recBus_writeT (f : Nat → Nat) (b : Nat) (s : Nat × List Nat) :
    (recBus f).writeT b s = (s.1, s.2 ++ [b]) := rfl

theorem recBus_readT (f : Nat → Nat) (s : Nat × List Nat) :
    (recBus f).readT s = ((s.1 + 1, s.2), f s.1) := rfl

theorem recBus_endT (f : Nat → Nat) (s : Nat × List Nat) : (recBus f).endT s = (s, 0) := rfl

/-! Error-flag behavior: every error site assigns `mError` (no OR). -/

theorem waitOnBusy_mError (B : Bus σ) (d : OWState) (s : σ) :
    (waitOnBusy B d s).1.1.mError = d.mError ∨
    (waitOnBusy B d s).1.1.mError = DS2482_ERROR_TIMEOUT := by
  unfold waitOnBusy
  by_cases h : (waitLoop B 999 s).2 &&& DS2482_STATUS_BUSY ≠ 0
  · rw [if_pos h]
    right
    rfl
  · rw [if_neg h]
    left
    rfl

theorem writeConfig_mError (B : Bus σ) (c : Nat) (d : OWState) (s : σ) :
    (writeConfig B c d s).1.mError = d.mError ∨
    (writeConfig B c d s).1.mError = DS2482_ERROR_TIMEOUT ∨
    (writeConfig B c d s).1.mError = DS2482_ERROR_CONFIG := by
  unfold writeConfig
  simp only
  split
  · right; right; rfl
  · rcases waitOnBusy_mError B d s with h1 | h1
    · left; exact h1
    · right; left; exact h1

/-- After any driver operation, `mError` is either untouched or exactly one
of the three flag constants: the union of the possible overwrite values. -/
def mErrorFlagged (d e : OWState) : Prop :=
  e.mError = d.mError ∨ e.mError = DS2482_ERROR_TIMEOUT ∨
  e.mError = DS2482_ERROR_SHORT ∨ e.mError = DS2482_ERROR_CONFIG

theorem mErrorFlagged_trans {d e g : OWState}
    (h1 : mErrorFlagged d e) (h2 : mErrorFlagged e g) : mErrorFlagged d g := by
  rcases h2 with h | h | h | h
  · rw [mErrorFlagged, h]; exact h1
  · right; left; exact h
  · right; right; left; exact h
  · right; right; right; exact h

theorem waitOnBusy_mErrorFlagged (B : Bus σ) (d : OWState) (s : σ) :
    mErrorFlagged d (waitOnBusy B d s).1.1 := by
  rcases waitOnBusy_mError B d s with h | h
  · left; exact h
  · right; left; exact h

theorem writeConfig_mErrorFlagged (B : Bus σ) (c : Nat) (d : OWState) (s : σ) :
    mErrorFlagged d (writeConfig B c d s).1 := by
  rcases writeConfig_mError B c d s with h | h | h
  · left; exact h
  · right; left; exact h
  · right; right; right; exact h

theorem clearStrongPullup_mErrorFlagged (B : Bus σ) (d : OWState) (s : σ) :
    mErrorFlagged d (clearStrongPullup B d s).1 :=
  writeConfig_mErrorFlagged B _ d _

theorem wireReset_mError (B : Bus σ) (d : OWState) (s : σ) :
    (wireReset B d s).1.1.mError = d.mError ∨
    (wireReset B d s).1.1.mError = DS2482_ERROR_TIMEOUT ∨
    (wireReset B d s).1.1.mError = DS2482_ERROR_SHORT ∨
    (wireReset B d s).1.1.mError = DS2482_ERROR_CONFIG := by
  unfold wireReset
  simp only
  have h1 := waitOnBusy_mErrorFlagged B d s
  have h2 := clearStrongPullup_mErrorFlagged B (waitOnBusy B d s).1.1 (waitOnBusy B d s).1.2
  have h3 := waitOnBusy_mErrorFlagged B (clearStrongPullup B (waitOnBusy B d s).1.1
    (waitOnBusy B d s).1.2).1 (clearStrongPullup B (waitOnBusy B d s).1.1
    (waitOnBusy B d s).1.2).2
  have h12 := mErrorFlagged_trans h1 (mErrorFlagged_trans h2 h3)
  split
  · right; right; left; rfl
  · exact mErrorFlagged_trans h12 (waitOnBusy_mErrorFlagged B _ _)

/-! Frame lemmas: which operations leave the search state untouched. -/

/-- `e` has the same search state (address, last discrepancy, last-device
flag) as `d`. -/
def sameSearch (d e : OWState) : Prop :=
  e.searchAddress = d.searchAddress ∧
  e.searchLastDiscrepancy = d.searchLastDiscrepancy ∧
  e.searchLastDeviceFlag = d.searchLastDeviceFlag

theorem sameSearch_refl (d : OWState) : sameSearch d d := ⟨rfl, rfl, rfl⟩

theorem sameSearch_trans {d e g : OWState} (h1 : sameSearch d e) (h2 : sameSearch e g) :
    sameSearch d g :=
  ⟨h2.1.trans h1.1, h2.2.1.trans h1.2.1, h2.2.2.trans h1.2.2⟩

theorem sameSearch_withError (d : OWState) (x : Nat) :
    sameSearch d { d with mError := x } := ⟨rfl, rfl, rfl⟩

theorem waitOnBusy_sameSearch (B : Bus σ) (d : OWState) (s : σ) :
    sameSearch d (waitOnBusy B d s).1.1 := by
  unfold waitOnBusy
  by_cases h : (waitLoop B 999 s).2 &&& DS2482_STATUS_BUSY ≠ 0
  · rw [if_pos h]
    exact sameSearch_withError d _
  · rw [if_neg h]
    exact sameSearch_refl d

theorem writeConfig_sameSearch (B : Bus σ) (c : Nat) (d : OWState) (s : σ) :
    sameSearch d (writeConfig B c d s).1 := by
  unfold writeConfig
  simp only
  split
  · exact sameSearch_trans (waitOnBusy_sameSearch B d s) (sameSearch_withError _ _)
  · exact waitOnBusy_sameSearch B d s

theorem setStrongPullup_sameSearch (B : Bus σ) (d : OWState) (s : σ) :
    sameSearch d (setStrongPullup B d s).1 :=
  writeConfig_sameSearch B _ d _

theorem clearStrongPullup_sameSearch (B : Bus σ) (d : OWState) (s : σ) :
    sameSearch d (clearStrongPullup B d s).1 :=
  writeConfig_sameSearch B _ d _

theorem wireReset_sameSearch (B : Bus σ) (d : OWState) (s : σ) :
    sameSearch d (wireReset B d s).1.1 := by
  unfold wireReset
  simp only
  have h1 := waitOnBusy_sameSearch B d s
  have h2 := clearStrongPullup_sameSearch B (waitOnBusy B d s).1.1 (waitOnBusy B d s).1.2
  have h3 := waitOnBusy_sameSearch B (clearStrongPullup B (waitOnBusy B d s).1.1
    (waitOnBusy B d s).1.2).1 (clearStrongPullup B (waitOnBusy B d s).1.1
    (waitOnBusy B d s).1.2).2
  have h12 := sameSearch_trans h1 (sameSearch_trans h2 h3)
  split
  · exact sameSearch_trans h12 (sameSearch_trans (waitOnBusy_sameSearch B _ _)
      (sameSearch_withError _ _))
  · exact sameSearch_trans h12 (waitOnBusy_sameSearch B _ _)

theorem wireWriteByte_sameSearch (B : Bus σ) (data power : Nat) (d : OWState) (s : σ) :
    sameSearch d (wireWriteByte B data power d s).1 := by
  unfold wireWriteByte
  simp only
  split
  · exact sameSearch_trans (waitOnBusy_sameSearch B d s) (setStrongPullup_sameSearch B _ _)
  · exact waitOnBusy_sameSearch B d s

theorem searchStep_sameSearch (B : Bus σ) (i : Nat) (d : OWState) (s : σ) :
    sameSearch d (searchStep B i d s).1.1 := by
  unfold searchStep
  simp only
  exact sameSearch_trans (waitOnBusy_sameSearch B d s) (waitOnBusy_sameSearch B _ _)

/-- The search loop never writes `searchLastDiscrepancy` or
`searchLastDeviceFlag` (those are assigned only after the loop). -/
theorem searchLoop_preserves_df (B : Bus σ) :
    ∀ fuel i lz d s acc,
      (searchLoop B fuel i lz d s acc).d.searchLastDiscrepancy = d.searchLastDiscrepancy ∧
      (searchLoop B fuel i lz d s acc).d.searchLastDeviceFlag = d.searchLastDeviceFlag := by
  intro fuel
  induction fuel with
  | zero => intro i lz d s acc; exact ⟨rfl, rfl⟩
  | succ n ih =>
    intro i lz d s acc
    have hstep := searchStep_sameSearch B i d s
    simp only [searchLoop]
    split
    · exact ⟨hstep.2.1, hstep.2.2⟩
    · have := ih (i + 1) (if (searchStep B i d s).2 &&& DS2482_STATUS_SBR = 0 ∧
        (searchStep B i d s).2 &&& DS2482_STATUS_TSB = 0 ∧
        (searchStep B i d s).2 &&& DS2482_STATUS_DIR = 0 then i else lz)
        { (searchStep B i d s).1.1 with
          searchAddress := ((searchStep B i d s).1.1).searchAddress.set (i / 8)
            (if (searchStep B i d s).2 &&& DS2482_STATUS_DIR ≠ 0 then
              ((searchStep B i d s).1.1).searchAddress.getD (i / 8) 0 ||| (1 <<< (i % 8))
            else ((searchStep B i d s).1.1).searchAddress.getD (i / 8) 0 &&& (255 ^^^ (1 <<< (i % 8)))) }
        (searchStep B i d s).1.2 (acc ++ [(searchStep B i d s).2])
      exact ⟨this.1.trans hstep.2.1, this.2.trans hstep.2.2⟩

/-! The candidate-discrepancy scan of the search loop, stated over the list
of post-triplet status bytes. -/

/-- The candidate-overwrite scan: walking the statuses from bit index `i0`
with current candidate `lz`, a status with SBR, TSB and DIR all clear
overwrites the candidate with its bit index. -/
def lastZeroScan : Nat → Nat → List Nat → Nat
  | _, lz, [] => lz
  | i0, lz, st :: rest =>
    lastZeroScan (i0 + 1)
      (if st &&& DS2482_STATUS_SBR = 0 ∧ st &&& DS2482_STATUS_TSB = 0 ∧
          st &&& DS2482_STATUS_DIR = 0 then i0 else lz) rest

/-- A completed search loop leaves `last_zero` equal to the candidate scan
of the statuses it appended. -/
theorem searchLoop_completed_statuses (B : Bus σ) :
    ∀ fuel i lz d s acc,
      (searchLoop B fuel i lz d s acc).completed = true →
      ∃ t, (searchLoop B fuel i lz d s acc).statuses = acc ++ t ∧
        (searchLoop B fuel i lz d s acc).lastZero = lastZeroScan i lz t := by
  intro fuel
  induction fuel with
  | zero =>
    intro i lz d s acc _
    exact ⟨[], by simp [searchLoop], rfl⟩
  | succ n ih =>
    intro i lz d s acc hc
    simp only [searchLoop] at hc ⊢
    by_cases hab : (searchStep B i d s).2 &&& DS2482_STATUS_SBR ≠ 0 ∧
        (searchStep B i d s).2 &&& DS2482_STATUS_TSB ≠ 0
    · rw [if_pos hab] at hc
      exact absurd hc (by simp)
    · rw [if_neg hab] at hc ⊢
      obtain ⟨t, h1, h2⟩ := ih _ _ _ _ _ hc
      refine ⟨(searchStep B i d s).2 :: t, ?_, ?_⟩
      · rw [h1, List.append_assoc]
        rfl
      · rw [h2]
        rfl

/-- The scan result never drops below a seed that is at most the start
index. -/
theorem lastZeroScan_ge_seed :
    ∀ (t : List Nat) (i0 lz : Nat), lz ≤ i0 → lz ≤ lastZeroScan i0 lz t := by
  intro t
  induction t with
  | nil => intro i0 lz _; exact Nat.le_refl lz
  | cons st rest ih =>
    intro i0 lz h
    simp only [lastZeroScan]
    split
    · exact Nat.le_trans h (ih (i0 + 1) i0 (by omega))
    · exact ih (i0 + 1) lz (by omega)

/-- Every status position with SBR, TSB and DIR all clear bounds the scan
result from below: the scan ends at the highest such position. -/
theorem lastZeroScan_ge_mem :
    ∀ (t : List Nat) (i0 lz j : Nat), j < t.length →
      t.getD j 0 &&& DS2482_STATUS_SBR = 0 →
      t.getD j 0 &&& DS2482_STATUS_TSB = 0 →
      t.getD j 0 &&& DS2482_STATUS_DIR = 0 →
      i0 + j ≤ lastZeroScan i0 lz t := by
  intro t
  induction t with
  | nil => intro i0 lz j hj _ _ _; simp at hj
  | cons st rest ih =>
    intro i0 lz j hj h1 h2 h3
    cases j with
    | zero =>
      simp only [List.getD_cons_zero] at h1 h2 h3
      simp only [lastZeroScan]
      rw [if_pos ⟨h1, h2, h3⟩, Nat.add_zero]
      exact lastZeroScan_ge_seed rest (i0 + 1) i0 (by omega)
    | succ m =>
      simp only [List.getD_cons_succ] at h1 h2 h3
      simp only [lastZeroScan]
      have hm : m < rest.length := by simpa using hj
      have := ih (i0 + 1)
        (if st &&& DS2482_STATUS_SBR = 0 ∧ st &&& DS2482_STATUS_TSB = 0 ∧
            st &&& DS2482_STATUS_DIR = 0 then i0 else lz) m hm h1 h2 h3
      omega

/-- A `wireSearch` call that returns an address sets
`searchLastDiscrepancy` to the candidate scan of the full status list. -/
theorem wireSearch_some_lastDiscrepancy (B : Bus σ) (d : OWState) (s : σ) (a : List Nat)
    (h : (wireSearch B d s).2.1 = some a) :
    (wireSearch B d s).1.1.searchLastDiscrepancy =
      lastZeroScan 0 0 (wireSearch B d s).2.2 := by
  unfold wireSearch at h ⊢
  by_cases hf : d.searchLastDeviceFlag ≠ 0
  · rw [if_pos hf] at h
    exact absurd h (by simp)
  · rw [if_neg hf] at h ⊢
    by_cases hr : (wireReset B d s).2 = 0
    · rw [if_pos hr] at h
      exact absurd h (by simp)
    · rw [if_neg hr] at h ⊢
      by_cases hL :
        (searchLoop B 64 0 0
          (wireWriteByte B WIRE_COMMAND_SEARCH 0 (waitOnBusy B (wireReset B d s).1.1
            (wireReset B d s).1.2).1.1 (waitOnBusy B (wireReset B d s).1.1
            (wireReset B d s).1.2).1.2).1
          (wireWriteByte B WIRE_COMMAND_SEARCH 0 (waitOnBusy B (wireReset B d s).1.1
            (wireReset B d s).1.2).1.1 (waitOnBusy B (wireReset B d s).1.1
            (wireReset B d s).1.2).1.2).2 []).completed = true
      · rw [if_pos hL]
        obtain ⟨t, h1, h2⟩ := searchLoop_completed_statuses B 64 0 0 _ _ [] hL
        simp only [List.nil_append] at h1
        simp only
        rw [h2, ← h1]
      · rw [if_neg hL] at h
        exact absurd h (by simp)

/-! Claim theorems. -/

/-- C9: the table-driven crc8 implementation and the bit-serial crc8
implementation compute the same function: for every byte sequence and
length both return the identical Dallas/Maxim CRC-8 (polynomial 0x8C in
right-shift form, initial value 0). -/
theorem C9_crc8_table_eq_serial (addr : List Nat) (len : Nat) :
    crc8_table addr len = crc8_serial addr len :=
  crc8_fold_eq (addr.take len) 0 (by norm_num)

/-- C5: over a scripted transport whose `n`-th status read is `f n % 256`,
`waitOnBusy` sets the Timeout flag if and only if BUSY is set on every one
of its at most 1000 status reads; it always returns the last status byte
observed; and if BUSY is clear on the `N`-th read (0-based, `N < 1000`) it
stops after exactly `N + 1` reads with the driver state untouched. -/
theorem C5_waitOnBusy_spec (f : Nat → Nat) (d : OWState) :
    ((∀ n, n < 1000 → f n % 256 &&& DS2482_STATUS_BUSY ≠ 0) →
      waitOnBusy (streamBus f) d 0 =
        (({ d with mError := DS2482_ERROR_TIMEOUT }, 1000), f 999 % 256)) ∧
    (∀ N, N < 1000 → f N % 256 &&& DS2482_STATUS_BUSY = 0 →
      (∀ m, m < N → f m % 256 &&& DS2482_STATUS_BUSY ≠ 0) →
      waitOnBusy (streamBus f) d 0 = ((d, N + 1), f N % 256)) := by
  constructor
  · intro h
    have := waitOnBusy_stream_allBusy f d 0 (fun k hk => by
      simpa using h k (by omega))
    simpa using this
  · intro N hN hc hmin
    have := waitOnBusy_stream_firstClear f d 0 N hN (by simpa using hc)
      (fun m hm => by simpa using hmin m hm)
    simpa using this

/-- C5 witness: both branches of `C5_waitOnBusy_spec` at concrete scripts:
an always-busy script reaches the timeout, and a script that is busy once
and then clear stops after the second read. -/
theorem C5_waitOnBusy_spec_witness :
    waitOnBusy (streamBus (fun _ => 1)) initOW 0 =
      (({ initOW with mError := DS2482_ERROR_TIMEOUT }, 1000), 1) ∧
    waitOnBusy (streamBus (fun n => if n = 0 then 1 else 0)) initOW 0 =
      ((initOW, 2), 0) := by
  constructor
  · have := (C5_waitOnBusy_spec (fun _ => 1) initOW).1 (fun n _ => by decide)
    simpa using this
  · have := (C5_waitOnBusy_spec (fun n => if n = 0 then 1 else 0) initOW).2 1
      (by omega) (by decide) (fun m hm => by
        have hm0 : m = 0 := by omega
        subst hm0
        decide)
    simpa using this

set_option maxRecDepth 8000 in
/-- C4: `deviceReset` routes the chip reset byte 0xF0 through the 1-Wire
`write`/`wireWriteByte` path instead of the raw register write: on an
always-busy transport the embedded `waitOnBusy` assigns the Timeout error
flag (so `mError` is not preserved), and the bytes put on the I2C bus are
the WRITEBYTE command 0xA5 followed by 0xF0, not the bare chip-level reset
command — contradicting the claim for this transport behavior. -/
theorem C4_deviceReset_sets_timeout :
    initOW.mError = 0 ∧
    (deviceReset (streamBus (fun _ => 1)) initOW 0).1.mError = DS2482_ERROR_TIMEOUT ∧
    (deviceReset (recBus (fun _ => 0)) initOW (0, [])).2.2 =
      [DS2482_COMMAND_SRP, DS2482_POINTER_STATUS,
       DS2482_COMMAND_WRITEBYTE, DS2482_COMMAND_RESET] := by
  refine ⟨rfl, ?_, by decide⟩
  unfold deviceReset write wireWriteByte
  simp only [streamBus_beginT, streamBus_writeT, streamBus_endT, writeByte]
  rw [waitOnBusy_stream_allBusy (fun _ => 1) initOW 0 (fun k _ => by norm_num [DS2482_STATUS_BUSY])]
  rfl

/-- C3: `clearStrongPullup` computes `readConfig() & !DS2482_CONFIG_SPU`
with the C++ logical not, so the 4-bit config value it writes is always 0.
With the chip config reading back as 5 (APU and SPU set) the transaction
log ends with the WRITECONFIG data byte 0xF0, which encodes config nibble
0 — the APU bit is cleared too — whereas clearing only the SPU bit would
write nibble 1 (encoded 0xE1). -/
theorem C3_clearStrongPullup_clears_all_bits :
    (clearStrongPullup (recBus (fun n => if n = 0 then 5 else 0)) initOW (0, [])).2.2 =
      [0xE1, 0xC3, 0xE1, 0xF0, 0xD2, 0xF0] ∧
    cNot DS2482_CONFIG_SPU = 0 ∧
    (5 : Nat) &&& cNot DS2482_CONFIG_SPU = 0 ∧
    (5 : Nat) &&& (255 ^^^ DS2482_CONFIG_SPU) = 1 ∧
    writeConfigByte 0 = 0xF0 ∧
    writeConfigByte 1 = 0xE1 ∧
    (0xF0 : Nat) &&& DS2482_CONFIG_APU = 0 := by
  decide

/-! Fixtures for the search claims. -/

/-- Device ROM 0x01 00 00 00 00 00 00 with its valid trailing CRC-8. -/
def rom1 : List Nat := [1, 0, 0, 0, 0, 0, 0, 61]

/-- Device ROM 0x02 00 00 00 00 00 00 with its valid trailing CRC-8.
Its bit 0 differs from `rom1`'s. -/
def rom2 : List Nat := [2, 0, 0, 0, 0, 0, 0, 122]

/-- All-zero ROM (bit 5 clear). -/
def romA : List Nat := [0, 0, 0, 0, 0, 0, 0, 0]

/-- ROM with only bit 5 set: differs from `romA` at bit 5 only. -/
def romB : List Nat := [32, 0, 0, 0, 0, 0, 0, 0]

/-- First search pass on the two-device bus {romA, romB}. -/
def c7run1 : (OWState × SimState) × (Option (List Nat) × List Nat) :=
  wireSearch (simBus [romA, romB]) (wireResetSearch initOW) simInit

/-- Second search pass on the two-device bus {romA, romB}. -/
def c7run2 : (OWState × SimState) × (Option (List Nat) × List Nat) :=
  wireSearch (simBus [romA, romB]) c7run1.1.1 c7run1.1.2

/-- Scripted status bytes driving `wireSearch` into a mid-loop abort: reads
0-4 serve `wireReset` (read 5 reports a presence pulse), reads 6-8 are idle
statuses, read 9 is the first post-triplet status (DIR set, so address bit 0
is set), and read 11 is a post-triplet status with SBR and TSB both set. -/
def f10 : Nat → Nat := fun n =>
  if n = 5 then 2 else if n = 9 then 128 else if n = 11 then 96 else 0

set_option maxRecDepth 10000 in
/-- C2 counterexample: `wireReset` on a shorted bus records
`mError = Short`; a subsequent `waitOnBusy` timeout assigns
`mError = Timeout`, and the Short bit is gone — the earlier flag was
cleared by an operation setting a different flag, so the flags do not
OR-accumulate. -/
theorem C2_error_flags_overwrite_counterexample :
    (wireReset (streamBus (fun n => if n = 5 then 4 else 0)) initOW 0).1.1.mError =
      DS2482_ERROR_SHORT ∧
    (waitOnBusy (streamBus (fun _ => 1))
      (wireReset (streamBus (fun n => if n = 5 then 4 else 0)) initOW 0).1.1 0).1.1.mError =
      DS2482_ERROR_TIMEOUT ∧
    (waitOnBusy (streamBus (fun _ => 1))
      (wireReset (streamBus (fun n => if n = 5 then 4 else 0)) initOW 0).1.1 0).1.1.mError &&&
      DS2482_ERROR_SHORT = 0 := by
  decide

/-- C2 (amended): error flags do not accumulate by OR — each error site
assigns `mError` outright, so after any of the three flag-setting
operations `mError` is either its prior value or exactly the single flag
constant of one error kind (the earlier flags are overwritten, and only one
error kind is visible at a time). -/
theorem C2_error_flags_overwrite (σ : Type) (B : Bus σ) (c : Nat) (d : OWState) (s : σ) :
    ((waitOnBusy B d s).1.1.mError = d.mError ∨
      (waitOnBusy B d s).1.1.mError = DS2482_ERROR_TIMEOUT) ∧
    ((writeConfig B c d s).1.mError = d.mError ∨
      (writeConfig B c d s).1.mError = DS2482_ERROR_TIMEOUT ∨
      (writeConfig B c d s).1.mError = DS2482_ERROR_CONFIG) ∧
    ((wireReset B d s).1.1.mError = d.mError ∨
      (wireReset B d s).1.1.mError = DS2482_ERROR_TIMEOUT ∨
      (wireReset B d s).1.1.mError = DS2482_ERROR_SHORT ∨
      (wireReset B d s).1.1.mError = DS2482_ERROR_CONFIG) :=
  ⟨waitOnBusy_mError B d s, writeConfig_mError B c d s, wireReset_mError B d s⟩

set_option maxRecDepth 10000 in
/-- C1: the claim fails on the code.  On the simulated two-device bus
{rom1, rom2} — distinct ROMs with valid trailing CRC-8 bytes, differing at
bit 0 — the first `wireSearch` after `wireResetSearch` forces direction 1
at bit 0 (because `i == searchLastDiscrepancy == 0` on the first pass),
never records the bit-0 discrepancy, returns rom1 and already sets
`searchLastDeviceFlag`, and the next call returns false: only one of the
two devices is ever reported. -/
theorem C1_search_misses_bit0_sibling :
    crc8_table rom1 7 = rom1.getD 7 0 ∧
    crc8_table rom2 7 = rom2.getD 7 0 ∧
    rom1 ≠ rom2 ∧
    (wireSearch (simBus [rom1, rom2]) (wireResetSearch initOW) simInit).2.1 = some rom1 ∧
    (wireSearch (simBus [rom1, rom2])
      (wireResetSearch initOW) simInit).1.1.searchLastDeviceFlag = 1 ∧
    (wireSearch (simBus [rom1, rom2])
      (wireSearch (simBus [rom1, rom2]) (wireResetSearch initOW) simInit).1.1
      (wireSearch (simBus [rom1, rom2]) (wireResetSearch initOW) simInit).1.2).2.1 = none := by
  decide

set_option maxRecDepth 10000 in
/-- C7 counterexample: on the two-device bus {romA, romB} the second search
pass completes (returns romB); its only post-triplet status with SBR and
TSB both clear is at bit index 5, but DIR is set there (the chip took the
1 branch), so the code does not record it: `searchLastDiscrepancy` ends up
0, not 5 as the claim requires. -/
theorem C7_lastDiscrepancy_counterexample :
    c7run2.2.1 = some romB ∧
    ((List.range 64).filter (fun i =>
      (c7run2.2.2.getD i 0 &&& (DS2482_STATUS_SBR ||| DS2482_STATUS_TSB)) == 0)) = [5] ∧
    c7run2.2.2.getD 5 0 &&& DS2482_STATUS_DIR ≠ 0 ∧
    c7run2.1.1.searchLastDiscrepancy = 0 ∧
    c7run2.1.1.searchLastDiscrepancy ≠ 5 := by
  decide

/-- C7 (amended): during `wireSearch`'s 64-bit loop a bit index becomes the
new candidate `lastDiscrepancy` only at positions whose post-triplet status
has SBR, TSB and DIR all clear; after a completed pass
`searchLastDiscrepancy` equals the candidate scan of the status list, and
it dominates every position with all three bits clear (it is the highest
such index, or 0 if none). -/
theorem C7_lastDiscrepancy_requires_dir_clear (σ : Type) (B : Bus σ) (d : OWState)
    (s : σ) (a : List Nat) (h : (wireSearch B d s).2.1 = some a) :
    (wireSearch B d s).1.1.searchLastDiscrepancy =
      lastZeroScan 0 0 (wireSearch B d s).2.2 ∧
    (∀ j, j < (wireSearch B d s).2.2.length →
      (wireSearch B d s).2.2.getD j 0 &&& DS2482_STATUS_SBR = 0 →
      (wireSearch B d s).2.2.getD j 0 &&& DS2482_STATUS_TSB = 0 →
      (wireSearch B d s).2.2.getD j 0 &&& DS2482_STATUS_DIR = 0 →
      j ≤ (wireSearch B d s).1.1.searchLastDiscrepancy) := by
  have h1 := wireSearch_some_lastDiscrepancy B d s a h
  refine ⟨h1, ?_⟩
  intro j hj hs ht hd
  rw [h1]
  simpa using lastZeroScan_ge_mem ((wireSearch B d s).2.2) 0 0 j hj hs ht hd

set_option maxRecDepth 10000 in
/-- C7 witness: the amended theorem applied to the completed second pass on
the two-device bus {romA, romB}. -/
theorem C7_lastDiscrepancy_requires_dir_clear_witness :
    c7run2.1.1.searchLastDiscrepancy = lastZeroScan 0 0 c7run2.2.2 :=
  (C7_lastDiscrepancy_requires_dir_clear SimState (simBus [romA, romB]) c7run1.1.1
    c7run1.1.2 romB (by decide)).1

/-- C8: `wireSearch` returns false at once — transport state untouched, so
no bus operation is issued — when `searchLastDeviceFlag` is already set;
and whenever the initial `wireReset` reports no presence it returns false
with the entire search state exactly as before the call. -/
theorem C8_wireSearch_early_exit (σ : Type) (B : Bus σ) (d : OWState) (s : σ) :
    (d.searchLastDeviceFlag ≠ 0 → wireSearch B d s = ((d, s), (none, []))) ∧
    ((wireReset B d s).2 = 0 →
      (wireSearch B d s).2.1 = none ∧ sameSearch d (wireSearch B d s).1.1) := by
  constructor
  · intro hf
    unfold wireSearch
    rw [if_pos hf]
  · intro hr
    by_cases hf : d.searchLastDeviceFlag ≠ 0
    · unfold wireSearch
      rw [if_pos hf]
      exact ⟨rfl, sameSearch_refl d⟩
    · unfold wireSearch
      rw [if_neg hf, if_pos hr]
      exact ⟨rfl, wireReset_sameSearch B d s⟩

/-- C8 witness: the exhausted-search branch on a flag-set state, and the
no-presence branch on an idle transport with no presence pulse. -/
theorem C8_wireSearch_early_exit_witness :
    wireSearch (streamBus (fun _ => 0)) { initOW with searchLastDeviceFlag := 1 } 0 =
      (({ initOW with searchLastDeviceFlag := 1 }, 0), (none, [])) ∧
    ((wireSearch (streamBus (fun _ => 0)) initOW 0).2.1 = none ∧
      sameSearch initOW (wireSearch (streamBus (fun _ => 0)) initOW 0).1.1) := by
  constructor
  · exact (C8_wireSearch_early_exit Nat (streamBus (fun _ => 0))
      { initOW with searchLastDeviceFlag := 1 } 0).1 (by decide)
  · exact (C8_wireSearch_early_exit Nat (streamBus (fun _ => 0)) initOW 0).2 (by decide)

set_option maxRecDepth 10000 in
/-- C10: a `wireSearch` call that returns false leaves
`searchLastDiscrepancy` and `searchLastDeviceFlag` unchanged (these are
assigned only after a completed loop), and there is a transport behavior —
the script `f10`, whose second post-triplet status has SBR and TSB both
set — under which such a failed call has already overwritten bits of
`searchAddress` from the iterations before the abort. -/
theorem C10_aborted_search_frame (σ : Type) (B : Bus σ) (d : OWState) (s : σ) :
    ((wireSearch B d s).2.1 = none →
      (wireSearch B d s).1.1.searchLastDiscrepancy = d.searchLastDiscrepancy ∧
      (wireSearch B d s).1.1.searchLastDeviceFlag = d.searchLastDeviceFlag) ∧
    ((wireSearch (streamBus f10) (wireResetSearch initOW) 0).2.1 = none ∧
     (wireSearch (streamBus f10) (wireResetSearch initOW) 0).2.2 = [128, 96] ∧
     (96 : Nat) &&& DS2482_STATUS_SBR ≠ 0 ∧ (96 : Nat) &&& DS2482_STATUS_TSB ≠ 0 ∧
     (wireSearch (streamBus f10) (wireResetSearch initOW) 0).1.1.searchAddress ≠
       (wireResetSearch initOW).searchAddress) := by
  constructor
  · intro h
    unfold wireSearch at h ⊢
    by_cases hf : d.searchLastDeviceFlag ≠ 0
    · rw [if_pos hf]
      exact ⟨rfl, rfl⟩
    · rw [if_neg hf] at h ⊢
      by_cases hr : (wireReset B d s).2 = 0
      · rw [if_pos hr]
        have hsr := wireReset_sameSearch B d s
        exact ⟨hsr.2.1, hsr.2.2⟩
      · rw [if_neg hr] at h ⊢
        by_cases hL :
          (searchLoop B 64 0 0
            (wireWriteByte B WIRE_COMMAND_SEARCH 0 (waitOnBusy B (wireReset B d s).1.1
              (wireReset B d s).1.2).1.1 (waitOnBusy B (wireReset B d s).1.1
              (wireReset B d s).1.2).1.2).1
            (wireWriteByte B WIRE_COMMAND_SEARCH 0 (waitOnBusy B (wireReset B d s).1.1
              (wireReset B d s).1.2).1.1 (waitOnBusy B (wireReset B d s).1.1
              (wireReset B d s).1.2).1.2).2 []).completed = true
        · rw [if_pos hL] at h
          exact absurd h (by simp)
        · rw [if_neg hL]
          have hchain : sameSearch d
              (wireWriteByte B WIRE_COMMAND_SEARCH 0 (waitOnBusy B (wireReset B d s).1.1
                (wireReset B d s).1.2).1.1 (waitOnBusy B (wireReset B d s).1.1
                (wireReset B d s).1.2).1.2).1 :=
            sameSearch_trans (wireReset_sameSearch B d s)
              (sameSearch_trans (waitOnBusy_sameSearch B _ _)
                (wireWriteByte_sameSearch B _ _ _ _))
          have hdf := searchLoop_preserves_df B 64 0 0
            (wireWriteByte B WIRE_COMMAND_SEARCH 0 (waitOnBusy B (wireReset B d s).1.1
              (wireReset B d s).1.2).1.1 (waitOnBusy B (wireReset B d s).1.1
              (wireReset B d s).1.2).1.2).1
            (wireWriteByte B WIRE_COMMAND_SEARCH 0 (waitOnBusy B (wireReset B d s).1.1
              (wireReset B d s).1.2).1.1 (waitOnBusy B (wireReset B d s).1.1
              (wireReset B d s).1.2).1.2).2 []
          exact ⟨hdf.1.trans hchain.2.1, hdf.2.trans hchain.2.2⟩
  · exact ⟨by decide, by decide, by decide, by decide, by decide⟩

set_option maxRecDepth 10000 in
/-- C10 witness: the frame part of the theorem applied to the concrete
aborted run driven by the script `f10`. -/
theorem C10_aborted_search_frame_witness :
    (wireSearch (streamBus f10) (wireResetSearch initOW) 0).1.1.searchLastDiscrepancy =
      (wireResetSearch initOW).searchLastDiscrepancy ∧
    (wireSearch (streamBus f10) (wireResetSearch initOW) 0).1.1.searchLastDeviceFlag =
      (wireResetSearch initOW).searchLastDeviceFlag :=
  (C10_aborted_search_frame Nat (streamBus f10) (wireResetSearch initOW) 0).1 (by decide)

/-- C6: for every 4-bit config value `c` (0-15), `writeConfig` transmits —
after the SRP bytes of its busy poll and the WRITECONFIG command byte —
exactly one data byte whose low nibble is `c` and whose high nibble is the
one's complement of `c`; it then reads back one byte `x` and assigns the
ConfigMismatch flag if and only if `x` differs from `c` (the driver state
is untouched on a match). -/
theorem C6_writeConfig_spec (c x : Nat) (d : OWState) (hc : c < 16) (hx : x < 256) :
    (writeConfig (recBus (fun n => if n = 0 then 0 else x)) c d (0, [])).2.2 =
      [DS2482_COMMAND_SRP, DS2482_POINTER_STATUS, DS2482_COMMAND_WRITECONFIG,
       c ||| ((15 ^^^ c) <<< 4)] ∧
    (c ||| ((15 ^^^ c) <<< 4)) &&& 15 = c ∧
    ((c ||| ((15 ^^^ c) <<< 4)) >>> 4) = 15 ^^^ c ∧
    (writeConfig (recBus (fun n => if n = 0 then 0 else x)) c d (0, [])).1 =
      (if x = c then d else { d with mError := DS2482_ERROR_CONFIG }) := by
  have hand : c &&& 15 = c := by interval_cases c <;> rfl
  have hlow : (c ||| ((15 ^^^ c) <<< 4)) &&& 15 = c := by interval_cases c <;> rfl
  have hhigh : ((c ||| ((15 ^^^ c) <<< 4)) >>> 4) = 15 ^^^ c := by interval_cases c <;> rfl
  have hb : writeConfigByte c < 256 := by
    unfold writeConfigByte
    interval_cases c <;> decide
  have hcc : c % 256 = c := Nat.mod_eq_of_lt (by omega)
  have h0 : readStatus (recBus (fun n => if n = 0 then 0 else x)) (0, []) =
      ((1, [DS2482_COMMAND_SRP, DS2482_POINTER_STATUS]), 0) := rfl
  have hwob : waitOnBusy (recBus (fun n => if n = 0 then 0 else x)) d (0, []) =
      ((d, (1, [DS2482_COMMAND_SRP, DS2482_POINTER_STATUS])), 0) := by
    unfold waitOnBusy
    rw [waitLoop_first_clear _ _ (by rw [h0]; rfl) 999, h0]
    norm_num
  have hwcb2 : writeConfigByte c = c ||| ((15 ^^^ c) <<< 4) := by
    unfold writeConfigByte
    rw [hand]
  have hxx : x % 256 = x := Nat.mod_eq_of_lt hx
  have hm2 : DS2482_COMMAND_WRITECONFIG % 256 = DS2482_COMMAND_WRITECONFIG := rfl
  refine ⟨?_, hlow, hhigh, ?_⟩
  · unfold writeConfig
    rw [hcc, hwob]
    simp only [recBus_beginT, recBus_writeT, recBus_endT, recBus_readT, writeByte, readByte]
    rw [Nat.mod_eq_of_lt hb, hm2, hwcb2]
    split <;> split <;> simp
  · unfold writeConfig
    rw [hcc, hwob]
    simp only [recBus_beginT, recBus_writeT, recBus_endT, recBus_readT, writeByte, readByte]
    by_cases hxc : x = c
    · simp [hxc, hxx, Nat.mod_eq_of_lt (show c < 256 by omega)]
    · simp [hxc, hxx]

/-- C6 witness: config value 5 with a matching echo (no flag, data byte
0xA5 = 5 with complement nibble 0xA) and with a corrupted echo 7 (sets
ConfigMismatch). -/
theorem C6_writeConfig_spec_witness :
    (writeConfig (recBus (fun n => if n = 0 then 0 else 5)) 5 initOW (0, [])).2.2 =
      [DS2482_COMMAND_SRP, DS2482_POINTER_STATUS, DS2482_COMMAND_WRITECONFIG,
       5 ||| ((15 ^^^ 5) <<< 4)] ∧
    (writeConfig (recBus (fun n => if n = 0 then 0 else 5)) 5 initOW (0, [])).1 = initOW ∧
    (writeConfig (recBus (fun n => if n = 0 then 0 else 7)) 5 initOW (0, [])).1 =
      { initOW with mError := DS2482_ERROR_CONFIG } := by
  refine ⟨(C6_writeConfig_spec 5 5 initOW (by omega) (by omega)).1, ?_, ?_⟩
  · have := (C6_writeConfig_spec 5 5 initOW (by omega) (by omega)).2.2.2
    simpa using this
  · have := (C6_writeConfig_spec 5 7 initOW (by omega) (by omega)).2.2.2
    simpa using this

end DS2482OW
